import Mathlib

/-!
Verification of the route-tracking and rerouting core of the
BeachResortCompass navigation application.

The development shallowly embeds the TypeScript sources:

* `client/src/lib/routeTracker.ts` (the `RouteTracker` class): geometry
  projection, instruction anchors, step advancement, off-route and
  completion detection.  Stateful methods become explicit state passing on
  `TrackerState`; callback invocations (`onStepChange`, `onRouteComplete`,
  `onOffRoute`) become an emitted `TrackerEvent` list.
* `client/src/lib/mapUtils.ts` (`calculateDistance`): divides the shared
  meters-valued point distance by 1000, so every distance seen by the
  tracker is in kilometers.
* `client/src/components/Navigation/GroundNavigation.tsx`
  (`handleAutoReroute` and the off-route branch of `updateProgress`): the
  reroute policy.  React component state is modelled as a record
  (`NavState`) and each `setX(v)` call as an immediate field update; the
  `await` inside `handleAutoReroute` splits it into a start phase and a
  resolution phase.

JavaScript numbers are idealized as `ℚ`, except in the instruction-anchor
computation, where the source divides by `instructions.length - 1` and a
single-instruction route produces `0/0 = NaN`; there the arithmetic is
carried out in an explicit model `JSVal` of JavaScript float special
values so that the `NaN` behaviour is preserved.
-/

namespace BeachResort

/-- A latitude/longitude pair (the `Coordinates` interface of
`client/src/types/navigation`): the position values fed to the tracker. -/
structure Coordinates where
  lat : ℚ
  lng : ℚ
deriving DecidableEq

/-- One geometry vertex of a route.  The source stores geometry points as
2-element arrays `[lng, lat]` (it reads `point[0]` for longitude and
`point[1]` for latitude); here the two slots are named fields. -/
structure LngLat where
  lng : ℚ
  lat : ℚ
deriving DecidableEq

/-- Reading a geometry vertex as a `Coordinates` value, as the source does
with `{ lat: point[1], lng: point[0] }`. -/
def LngLat.toCoord (p : LngLat) : Coordinates :=
  { lat := p.lat, lng := p.lng }

/-- The part of the `RouteResponse` record that `RouteTracker` reads: the
ordered polyline geometry and the instruction list.  (The remaining fields
of the source interface — total distance and time metadata from the
routing collaborator — are never read by the tracker, which recomputes the
total from the geometry.) -/
structure RouteResponse where
  geometry : List LngLat
  instructions : List String
deriving DecidableEq

/-- Geometry vertex at index `i`, as a `Coordinates` value.  All source
accesses are in bounds; the default is never reached for the index ranges
used below. -/
def coordAt (geometry : List LngLat) (i : ℕ) : Coordinates :=
  (geometry.getD i { lng := 0, lat := 0 }).toCoord

/-! ### JavaScript float special values

`initializeInstructionAnchors` computes
`Math.floor((i / (n - 1)) * (g - 1))` and clamps it with
`Math.min`/`Math.max`.  For a route with a single instruction the division
is `0/0`, which is `NaN` in JavaScript, and `Math.floor`, `Math.min` and
`Math.max` all propagate `NaN`.  `JSVal` models a JavaScript number as
either `NaN`, a signed infinity, or a finite value (idealized as `ℚ`). -/

/-- A JavaScript number: `nan`, `inf true` (+Infinity), `inf false`
(-Infinity), or a finite value. -/
inductive JSVal where
  | nan : JSVal
  | inf : Bool → JSVal
  | num : ℚ → JSVal
deriving DecidableEq

/-- JavaScript division.  `0/0 = NaN`; a nonzero finite value divided by
zero gives a signed infinity; `NaN` propagates; a finite value divided by
an infinity is `0`.  (Negative zero is not distinguished.) -/
def jsDiv : JSVal → JSVal → JSVal
  | JSVal.nan, _ => JSVal.nan
  | _, JSVal.nan => JSVal.nan
  | JSVal.inf _, JSVal.inf _ => JSVal.nan
  | JSVal.inf p, JSVal.num b => if 0 ≤ b then JSVal.inf p else JSVal.inf (!p)
  | JSVal.num _, JSVal.inf _ => JSVal.num 0
  | JSVal.num a, JSVal.num b =>
      if b = 0 then (if a = 0 then JSVal.nan else JSVal.inf (0 < a)) else JSVal.num (a / b)

/-- JavaScript multiplication.  `NaN` propagates; `0 * ±Infinity = NaN`. -/
def jsMul : JSVal → JSVal → JSVal
  | JSVal.nan, _ => JSVal.nan
  | _, JSVal.nan => JSVal.nan
  | JSVal.inf p, JSVal.inf q => JSVal.inf (p = q)
  | JSVal.inf p, JSVal.num b => if b = 0 then JSVal.nan else JSVal.inf (p = decide (0 < b))
  | JSVal.num a, JSVal.inf q => if a = 0 then JSVal.nan else JSVal.inf (q = decide (0 < a))
  | JSVal.num a, JSVal.num b => JSVal.num (a * b)

/-- `Math.floor`: `NaN` and infinities are returned unchanged. -/
def jsFloor : JSVal → JSVal
  | JSVal.nan => JSVal.nan
  | JSVal.inf p => JSVal.inf p
  | JSVal.num q => JSVal.num ⌊q⌋

/-- `Math.min`: returns `NaN` if either argument is `NaN`. -/
def jsMin : JSVal → JSVal → JSVal
  | JSVal.nan, _ => JSVal.nan
  | _, JSVal.nan => JSVal.nan
  | JSVal.inf true, y => y
  | JSVal.inf false, _ => JSVal.inf false
  | JSVal.num _, JSVal.inf false => JSVal.inf false
  | JSVal.num a, JSVal.inf true => JSVal.num a
  | JSVal.num a, JSVal.num b => JSVal.num (min a b)

/-- `Math.max`: returns `NaN` if either argument is `NaN`. -/
def jsMax : JSVal → JSVal → JSVal
  | JSVal.nan, _ => JSVal.nan
  | _, JSVal.nan => JSVal.nan
  | JSVal.inf false, y => y
  | JSVal.inf true, _ => JSVal.inf true
  | JSVal.num _, JSVal.inf true => JSVal.inf true
  | JSVal.num a, JSVal.inf false => JSVal.num a
  | JSVal.num a, JSVal.num b => JSVal.num (max a b)

/-- Reading a `JSVal` back as a natural-number array index, for use as the
loop bound `nextAnchorIndex` in `calculateDistanceToNextManeuver`.  At
every reachable use the value is a nonnegative integer (`num` of a
nonnegative integral rational); the other branches are never hit there. -/
def jsValToNat : JSVal → ℕ
  | JSVal.num q => ⌊q⌋.toNat
  | _ => 0

/-! ### Instruction anchors (`RouteTracker.initializeInstructionAnchors`) -/

/-- One entry of the instruction-anchor table:
`Math.max(0, Math.min(Math.floor((i / (n - 1)) * (g - 1)), g - 1))`
with `n` the instruction count and `g` the geometry length, computed in
JavaScript float semantics. -/
def anchorEntry (instructionCount geometryCount : ℕ) (i : ℕ) : JSVal :=
  let distributedIndex :=
    jsFloor (jsMul (jsDiv (JSVal.num i) (JSVal.num ((instructionCount : ℚ) - 1)))
      (JSVal.num ((geometryCount : ℚ) - 1)))
  jsMax (JSVal.num 0) (jsMin distributedIndex (JSVal.num ((geometryCount : ℚ) - 1)))

/-- `initializeInstructionAnchors`: one anchor entry per instruction.
(The source's early return fires only when `instructions` or `geometry` is
null/undefined, which the record type rules out; an empty list is truthy
in JavaScript and runs the loop zero times.) -/
def initializeInstructionAnchors (route : RouteResponse) : List JSVal :=
  (List.range route.instructions.length).map
    (anchorEntry route.instructions.length route.geometry.length)

/-- The anchor table as the SPEC states it: `anchor[i] =
round(i / (instructionCount−1) × (geometryLength−1))`, clamped to
`[0, geometryLength−1]`.  Written from the spec's words, for comparison
with `initializeInstructionAnchors` (which the source builds with
`Math.floor`). -/
def specRoundAnchorTable (instructionCount geometryCount : ℕ) : List ℤ :=
  (List.range instructionCount).map (fun i =>
    max 0 (min (round ((i : ℚ) / ((instructionCount : ℚ) - 1) * ((geometryCount : ℚ) - 1)))
      ((geometryCount : ℤ) - 1)))

/-! ### Distances

`client/src/lib/mapUtils.ts` defines
`calculateDistance = calcDistanceMeters(...) / 1000` — it divides the
shared meters-valued point distance by 1000 and returns KILOMETERS (its
own comment: "Convert from meters to kilometers for backward
compatibility").  The underlying meters distance lives in
`shared/utils.ts`, which is not among the sources; the development is
therefore parameterized over it. -/

/-- A point-to-point distance function in METERS, the shape of the shared
`calculateDistance(lat1, lng1, lat2, lng2)` primitive. -/
abbrev DistFn := Coordinates → Coordinates → ℚ

/-- `mapUtils.calculateDistance`: the shared meters distance divided by
1000, i.e. the distance in kilometers.  Every distance the tracker
computes goes through this wrapper. -/
def calculateDistance (dMeters : DistFn) (point1 point2 : Coordinates) : ℚ :=
  dMeters point1 point2 / 1000

/-- Modelled from the spec: the shared point-to-point distance primitive
(`shared/utils.calculateDistance`, whose file is not among the sources).
The spec treats it as an opaque geographic distance in meters between two
lat/lng coordinates.  It is modelled here as a planar distance with the
conventional 111320 meters-per-degree scale (the Chebyshev combination of
the coordinate differences), which is exactly computable on rationals.
No claim settled below depends on the precise distance formula: theorems
about the tracker are proved for every `DistFn`, and this instance only
supplies concrete witness evaluations. -/
def specDistanceMeters : DistFn := fun p q =>
  111320 * max |p.lat - q.lat| |p.lng - q.lng|

/-! ### Point-to-segment projection (`RouteTracker.getClosestPointOnSegment`) -/

/-- `getClosestPointOnSegment`: orthogonal projection of `point` onto the
segment in raw lat/lng space, clamped to the segment endpoints; a
zero-length segment returns its start point. -/
def getClosestPointOnSegment (point segmentStart segmentEnd : Coordinates) : Coordinates :=
  let A := point.lat - segmentStart.lat
  let B := point.lng - segmentStart.lng
  let C := segmentEnd.lat - segmentStart.lat
  let D := segmentEnd.lng - segmentStart.lng
  let dot := A * C + B * D
  let lenSq := C * C + D * D
  if lenSq = 0 then segmentStart
  else
    let param := dot / lenSq
    if param < 0 then segmentStart
    else if param > 1 then segmentEnd
    else { lat := segmentStart.lat + param * C, lng := segmentStart.lng + param * D }

/-- The result record of `findClosestPointOnRoute`: snapped point, its
distance from the query position (in the tracker's km-valued distance
units), and the index of the segment it lies on. -/
structure RouteInfo where
  point : Coordinates
  distance : ℚ
  segmentIndex : ℕ
deriving DecidableEq

/-- The loop of `findClosestPointOnRoute`: over every segment index, keep
the segment whose clamped projection is strictly closest (first wins on
ties, as the source updates only on `distance < minDistance`).  The
accumulator starts at `none`, standing for the source's
`minDistance = Infinity` initialization, against which the first segment
always wins. -/
def closestFold (dMeters : DistFn) (geometry : List LngLat) (position : Coordinates) :
    Option (ℚ × Coordinates × ℕ) :=
  (List.range (geometry.length - 1)).foldl
    (fun acc i =>
      let segmentStart := coordAt geometry i
      let segmentEnd := coordAt geometry (i + 1)
      let closestOnSegment := getClosestPointOnSegment position segmentStart segmentEnd
      let distance := calculateDistance dMeters position closestOnSegment
      match acc with
      | none => some (distance, closestOnSegment, i)
      | some best => if distance < best.1 then some (distance, closestOnSegment, i) else acc)
    none

/-- `findClosestPointOnRoute`: degenerate geometry (fewer than 2 points)
returns the position itself with distance 0 and segment 0; otherwise the
closest clamped projection over all segments.  (The `none` fallback
mirrors the source's initial accumulator values and is unreachable when
the geometry has at least 2 points.) -/
def findClosestPointOnRoute (dMeters : DistFn) (geometry : List LngLat)
    (position : Coordinates) : RouteInfo :=
  if geometry.length < 2 then { point := position, distance := 0, segmentIndex := 0 }
  else
    match closestFold dMeters geometry position with
    | some (m, c, i) => { point := c, distance := m, segmentIndex := i }
    | none => { point := position, distance := 0, segmentIndex := 0 }

/-! ### Tracker state and thresholds -/

/-- `STEP_ADVANCE_THRESHOLD = 15` — the source's comment says meters. -/
def STEP_ADVANCE_THRESHOLD : ℚ := 15

/-- `OFF_ROUTE_THRESHOLD = 25` — the source's comment says meters
("GPS-TOLERANT: Erhöht von 8m auf 25m"). -/
def OFF_ROUTE_THRESHOLD : ℚ := 25

/-- `ROUTE_COMPLETE_THRESHOLD = 3` — the source's comment says meters. -/
def ROUTE_COMPLETE_THRESHOLD : ℚ := 3

/-- The numeric part of the `ETAUpdate` record returned by the speed
tracker.  (The wall-clock `estimatedArrival : Date` field is omitted: it
reads the ambient clock and no claim constrains it.) -/
structure ETAUpdate where
  estimatedTimeRemaining : ℚ
  speedBasedETA : ℚ
  distanceRemaining : ℚ
deriving DecidableEq

/-- Modelled from the spec: the speed/ETA smoother (`SpeedTracker`,
`client/src/lib/speedTracker.ts`, not among the sources).  Its state is
the retained sample history (`addPosition` appends; a fresh tracker has an
empty history — the spec leaves the eviction capacity as an implementation
choice, "not a hard contract", so eviction is not modelled).  The numeric
outputs are abstracted as arbitrary functions of the history, since no
claim below constrains them. -/
structure SpeedModel where
  currentSpeed : List Coordinates → ℚ
  averageSpeed : List Coordinates → ℚ
  eta : List Coordinates → ℚ → ETAUpdate

/-- A trivial `SpeedModel` instance used only to instantiate concrete
evaluations in witnesses and counterexamples. -/
def zeroSpeedModel : SpeedModel where
  currentSpeed := fun _ => 0
  averageSpeed := fun _ => 0
  eta := fun _ _ => { estimatedTimeRemaining := 0, speedBasedETA := 0, distanceRemaining := 0 }

/-- The mutable fields of the `RouteTracker` class. -/
structure TrackerState where
  route : RouteResponse
  currentStepIndex : ℕ
  completedDistance : ℚ
  totalDistance : ℚ
  speedSamples : List Coordinates
  instructionAnchorIndices : List JSVal
deriving DecidableEq

/-- `calculateTotalDistance`: sum of the segment lengths, 0 for fewer than
2 geometry points.  The source iterates `i` from 1 to `length - 1` adding
the distance between points `i-1` and `i`. -/
def calculateTotalDistance (dMeters : DistFn) (route : RouteResponse) : ℚ :=
  if route.geometry.length < 2 then 0
  else
    (List.range' 1 (route.geometry.length - 1)).foldl
      (fun total i =>
        total + calculateDistance dMeters (coordAt route.geometry (i - 1))
          (coordAt route.geometry i))
      0

/-- The `RouteTracker` constructor: step index 0, no completed distance, a
fresh speed tracker, and the instruction anchors built for the route. -/
def mkRouteTracker (dMeters : DistFn) (route : RouteResponse) : TrackerState where
  route := route
  currentStepIndex := 0
  completedDistance := 0
  totalDistance := calculateTotalDistance dMeters route
  speedSamples := []
  instructionAnchorIndices := initializeInstructionAnchors route

/-- A callback invocation by the tracker: `onStepChange(step)`,
`onRouteComplete()`, or `onOffRoute(distance)`. -/
inductive TrackerEvent where
  | stepChange : ℕ → TrackerEvent
  | routeComplete : TrackerEvent
  | offRoute : ℚ → TrackerEvent
deriving DecidableEq

/-- `updateRoute(newRoute)`: replace the route, reset the step index and
the completed distance, recompute the total, replace the speed tracker
with a fresh one, and rebuild the anchors.  The method body invokes none
of the callbacks, hence the empty event list. -/
def updateRoute (dMeters : DistFn) (s : TrackerState) (newRoute : RouteResponse) :
    TrackerState × List TrackerEvent :=
  ({ route := newRoute
     currentStepIndex := 0
     completedDistance := 0
     totalDistance := calculateTotalDistance dMeters newRoute
     speedSamples := []
     instructionAnchorIndices := initializeInstructionAnchors newRoute }, [])

/-- The final geometry point as a `Coordinates` value — the destination
the source builds from `geometry[geometry.length - 1]`. -/
def destinationOf (route : RouteResponse) : Coordinates :=
  coordAt route.geometry (route.geometry.length - 1)

/-- The sum the source accumulates with
`for (i = lo; i < hi; i++) if (i < geometry.length - 1) total += dist(geometry[i], geometry[i+1])`.
(`calculateDistanceToNextManeuver` carries the inner bounds check in the
loop body; `calculateRemainingDistance` runs the loop up to
`geometry.length - 1`, where the check is vacuously true.) -/
def segmentSpan (dMeters : DistFn) (geometry : List LngLat) (lo hi : ℕ) : ℚ :=
  (List.range' lo (hi - lo)).foldl
    (fun total i =>
      if i < geometry.length - 1 then
        total + calculateDistance dMeters (coordAt geometry i) (coordAt geometry (i + 1))
      else total)
    0

/-- `calculateDistanceToNextManeuver`: at or past the last anchor, the
distance to the destination point; otherwise the distance from the snapped
position to the end of its segment plus the segment lengths up to (but
excluding) the next instruction's anchor index. -/
def calculateDistanceToNextManeuver (dMeters : DistFn) (s : TrackerState)
    (currentPosition : Coordinates) : ℚ :=
  if (s.currentStepIndex : ℤ) ≥ (s.instructionAnchorIndices.length : ℤ) - 1 then
    calculateDistance dMeters currentPosition (destinationOf s.route)
  else
    let routeInfo := findClosestPointOnRoute dMeters s.route.geometry currentPosition
    let nextAnchorIndex :=
      jsValToNat (s.instructionAnchorIndices.getD (s.currentStepIndex + 1) JSVal.nan)
    let firstLeg :=
      if routeInfo.segmentIndex < s.route.geometry.length - 1 then
        calculateDistance dMeters routeInfo.point
          (coordAt s.route.geometry (routeInfo.segmentIndex + 1))
      else 0
    firstLeg + segmentSpan dMeters s.route.geometry (routeInfo.segmentIndex + 1) nextAnchorIndex

/-- `calculateRemainingDistance`: 0 for empty geometry; otherwise the
distance from the snapped point to the end of its segment plus all
remaining segment lengths. -/
def calculateRemainingDistance (dMeters : DistFn) (route : RouteResponse)
    (currentPosition : Coordinates) : ℚ :=
  if route.geometry.length = 0 then 0
  else
    let routeInfo := findClosestPointOnRoute dMeters route.geometry currentPosition
    let firstLeg :=
      if routeInfo.segmentIndex < route.geometry.length - 1 then
        calculateDistance dMeters routeInfo.point
          (coordAt route.geometry (routeInfo.segmentIndex + 1))
      else 0
    firstLeg + segmentSpan dMeters route.geometry (routeInfo.segmentIndex + 1)
      (route.geometry.length - 1)

/-- The `RouteProgress` record `updatePosition` returns.  (The wall-clock
part of `dynamicETA` is omitted, as in `ETAUpdate`.) -/
structure RouteProgress where
  currentStep : ℕ
  distanceToNext : ℚ
  distanceRemaining : ℚ
  shouldAdvance : Bool
  isOffRoute : Bool
  percentComplete : ℚ
  estimatedTimeRemaining : ℚ
  currentSpeed : ℚ
  averageSpeed : ℚ
  dynamicETA : ETAUpdate
  rawGpsPosition : Option Coordinates
  snappedGpsPosition : Option Coordinates
  offRouteDistance : Option ℚ
deriving DecidableEq

/-- `createDefaultProgress`: the zeroed record returned for a degenerate
route. -/
def createDefaultProgress : RouteProgress where
  currentStep := 0
  distanceToNext := 0
  distanceRemaining := 0
  shouldAdvance := false
  isOffRoute := false
  percentComplete := 0
  estimatedTimeRemaining := 0
  currentSpeed := 0
  averageSpeed := 0
  dynamicETA := { estimatedTimeRemaining := 0, speedBasedETA := 0, distanceRemaining := 0 }
  rawGpsPosition := none
  snappedGpsPosition := none
  offRouteDistance := none

/-- `updatePosition(position)`: the tracker's main step.  Returns the
updated state, the progress record, and the callback invocations in
source order (`onStepChange`, then `onRouteComplete`, then `onOffRoute`).

Mirrors the source line by line: empty geometry returns the default
progress untouched; otherwise the position is appended to the speed
history, snapped to the route, compared against the three thresholds
(note that every distance is the km-valued `calculateDistance` while the
thresholds are the source's meter-intended constants), the step index is
advanced by one when permitted, and the progress record is assembled.
`percentComplete = min(((total − remaining) / total) · 100, 100)`; for a
zero-length route the source's float division yields `NaN` where `ℚ`
division by zero yields 0 — no claim touches that case. -/
def updatePosition (dMeters : DistFn) (sm : SpeedModel) (s : TrackerState)
    (position : Coordinates) : TrackerState × RouteProgress × List TrackerEvent :=
  if s.route.geometry.length = 0 then (s, createDefaultProgress, [])
  else
    let speedSamples := s.speedSamples ++ [position]
    let routeInfo := findClosestPointOnRoute dMeters s.route.geometry position
    let isOffRoute := decide (routeInfo.distance > OFF_ROUTE_THRESHOLD)
    let distanceToNextManeuver := calculateDistanceToNextManeuver dMeters s position
    let shouldAdvance := decide (distanceToNextManeuver < STEP_ADVANCE_THRESHOLD)
    let destination := destinationOf s.route
    let distanceToDestination := calculateDistance dMeters position destination
    let isComplete := decide (distanceToDestination < ROUTE_COMPLETE_THRESHOLD)
    let advance :=
      shouldAdvance && decide ((s.currentStepIndex : ℤ) < (s.route.instructions.length : ℤ) - 1)
    let newStepIndex := if advance then s.currentStepIndex + 1 else s.currentStepIndex
    let distanceRemaining := calculateRemainingDistance dMeters s.route position
    let percentComplete :=
      min (((s.totalDistance - distanceRemaining) / s.totalDistance) * 100) 100
    let speedData := (sm.currentSpeed speedSamples, sm.averageSpeed speedSamples)
    let dynamicETA := sm.eta speedSamples distanceRemaining
    ({ s with currentStepIndex := newStepIndex, speedSamples := speedSamples },
   { currentStep := newStepIndex
     distanceToNext := distanceToNextManeuver
     distanceRemaining := distanceRemaining
     shouldAdvance := shouldAdvance
     isOffRoute := isOffRoute
     percentComplete := percentComplete
     estimatedTimeRemaining := dynamicETA.estimatedTimeRemaining
     currentSpeed := speedData.1
     averageSpeed := speedData.2
     dynamicETA := dynamicETA
     rawGpsPosition := some position
     snappedGpsPosition := some routeInfo.point
     offRouteDistance := some routeInfo.distance },
   (if advance then [TrackerEvent.stepChange newStepIndex] else []) ++
     (if isComplete then [TrackerEvent.routeComplete] else []) ++
     (if isOffRoute then [TrackerEvent.offRoute routeInfo.distance] else []))

/-- A sequence of `updatePosition` calls on one tracker, collecting every
emitted callback invocation in order. -/
def runUpdates (dMeters : DistFn) (sm : SpeedModel) (s : TrackerState)
    (positions : List Coordinates) : TrackerState × List TrackerEvent :=
  positions.foldl
    (fun acc p =>
      ((updatePosition dMeters sm acc.1 p).1, acc.2 ++ (updatePosition dMeters sm acc.1 p).2.2))
    (s, [])

/-! ### The reroute policy (`GroundNavigation.tsx`)

React component state is modelled as the record `NavState`, with each
`setX(v)` call an immediate field update.  `handleAutoReroute` is an
`async` function that suspends at `await rerouteService.quickReroute(...)`;
it is split at that point into `handleAutoRerouteStart` (the guard, the
destination extraction, and the issuing of the network request) and
`handleAutoRerouteResolve` (everything after the `await`, including the
`catch`/`finally` clauses).  `requestCount` instruments the number of
calls made to the routing collaborator (`rerouteService.quickReroute`,
whose implementation is not among the sources; its outcome is modelled as
`RerouteOutcome`). -/

/-- The claim-relevant component state of `GroundNavigation`: the `route`
prop (replaced through the `onRouteUpdate` callback), the `RouteTracker`
instance, and the `useState` fields the reroute path touches.
`requestCount` counts issued network reroute requests. -/
structure NavState where
  route : RouteResponse
  tracker : TrackerState
  currentStepIndex : ℕ
  isOffRoute : Bool
  offRouteCount : ℕ
  lastAnnouncedDistance : ℚ
  isRerouting : Bool
  requestCount : ℕ
deriving DecidableEq

/-- The outcome of the asynchronous `rerouteService.quickReroute` call:
either a new route, or a rejection.  Modelled from the spec: the routing
collaborator is external, and the core treats a rejection or an
unusable response as a recoverable failure. -/
inductive RerouteOutcome where
  | success : RouteResponse → RerouteOutcome
  | failure : RerouteOutcome

/-- The part of `handleAutoReroute` up to the `await`:
`if (isRerouting || !currentPosition || !onRouteUpdate) return;` then
`setIsRerouting(true)`, extraction of the destination from the route
geometry (an empty geometry throws, is caught, and `finally` clears
`isRerouting`), and the issuing of the `quickReroute` network request.
`hasRouteUpdateCb` is whether the optional `onRouteUpdate` prop is
wired. -/
def handleAutoRerouteStart (nav : NavState) (currentPosition : Option Coordinates)
    (hasRouteUpdateCb : Bool) : NavState :=
  if nav.isRerouting || currentPosition.isNone || !hasRouteUpdateCb then nav
  else if nav.route.geometry.length = 0 then
    { nav with isRerouting := false }
  else
    { nav with isRerouting := true, requestCount := nav.requestCount + 1 }

/-- The part of `handleAutoReroute` after the `await`.  On success:
`onRouteUpdate(newRoute)` (the route prop is replaced),
`setCurrentStepIndex(0)`, `setOffRouteCount(0)`,
`setLastAnnouncedDistance(0)`, `routeTracker.updateRoute(newRoute)`, and
`finally setIsRerouting(false)`.  On failure: `console.error` only, then
`finally setIsRerouting(false)` — no other field is touched. -/
def handleAutoRerouteResolve (dMeters : DistFn) (nav : NavState)
    (outcome : RerouteOutcome) : NavState :=
  match outcome with
  | RerouteOutcome.success newRoute =>
      { nav with
        route := newRoute
        currentStepIndex := 0
        offRouteCount := 0
        lastAnnouncedDistance := 0
        tracker := (updateRoute dMeters nav.tracker newRoute).1
        isRerouting := false }
  | RerouteOutcome.failure => { nav with isRerouting := false }

/-- Lines 362–374 of `GroundNavigation.updateProgress`: when the progress
reports off-route, consult `campgroundRerouteDetector.shouldReroute` and,
if it says to reroute, call `handleAutoReroute`.

`useRealGPS` is the GPS-source flag the component obtains from
`useLocation()`; it is in scope in the component but is not consulted
anywhere on this path, and is carried here as a parameter so that
source-dependence can be stated.  `detectorShouldReroute` is the
decision of `CampgroundRerouteDetector.shouldReroute(position, route,
isNavigating)` — its implementation is not among the sources and its
signature carries no GPS-source information, so it is modelled as an
oracle input. -/
def rerouteCheck (nav : NavState) (useRealGPS : Bool) (progressIsOffRoute : Bool)
    (detectorShouldReroute : Bool) (currentPosition : Option Coordinates)
    (hasRouteUpdateCb : Bool) : NavState :=
  if progressIsOffRoute && detectorShouldReroute then
    handleAutoRerouteStart nav currentPosition hasRouteUpdateCb
  else nav

/-- A synchronous burst of off-route events, each processed through the
reroute check with the detector voting to reroute, with no reroute
resolution in between. -/
def processOffRouteBurst (nav : NavState) (useRealGPS : Bool)
    (positions : List Coordinates) (hasRouteUpdateCb : Bool) : NavState :=
  positions.foldl
    (fun s p => rerouteCheck s useRealGPS true true (some p) hasRouteUpdateCb)
    nav

/-! ### Concrete sample data

Small routes and positions used to instantiate witnesses and
counterexamples.  Geometry points are `[lng, lat]`; with the
`specDistanceMeters` scale, a coordinate difference of `1/1000` of a
degree is 111.32 modelled meters. -/

/-- A two-instruction route along the equator from lng 0 to lng 1. -/
def sampleRoute : RouteResponse where
  geometry := [{ lng := 0, lat := 0 }, { lng := 1, lat := 0 }]
  instructions := ["Head east", "You have arrived"]

/-- A single-instruction route with the same geometry. -/
def arrivalRoute : RouteResponse where
  geometry := [{ lng := 0, lat := 0 }, { lng := 1, lat := 0 }]
  instructions := ["You have arrived"]

/-- A single-instruction route over five geometry points. -/
def fivePointRoute : RouteResponse where
  geometry := [{ lng := 0, lat := 0 }, { lng := 1/4, lat := 0 }, { lng := 1/2, lat := 0 },
    { lng := 3/4, lat := 0 }, { lng := 1, lat := 0 }]
  instructions := ["You have arrived"]

/-- Three instructions over four geometry points: the proportional factor
for the middle instruction is `1/2 × 3 = 3/2`, where flooring and
rounding disagree. -/
def threeByFourRoute : RouteResponse where
  geometry := [{ lng := 0, lat := 0 }, { lng := 1/4, lat := 0 }, { lng := 1/2, lat := 0 },
    { lng := 1, lat := 0 }]
  instructions := ["Start", "Continue", "You have arrived"]

/-- Two instructions over nine geometry points — the spec's anchor
example, expecting anchors `[0, 8]`. -/
def twoByNineRoute : RouteResponse where
  geometry := [{ lng := 0, lat := 0 }, { lng := 1/8, lat := 0 }, { lng := 1/4, lat := 0 },
    { lng := 3/8, lat := 0 }, { lng := 1/2, lat := 0 }, { lng := 5/8, lat := 0 },
    { lng := 3/4, lat := 0 }, { lng := 7/8, lat := 0 }, { lng := 1, lat := 0 }]
  instructions := ["Head east", "You have arrived"]

/-- A route whose instruction list is empty but whose geometry is not. -/
def noInstructionRoute : RouteResponse where
  geometry := [{ lng := 0, lat := 0 }, { lng := 1, lat := 0 }]
  instructions := []

/-- The degenerate route: empty geometry. -/
def emptyRoute : RouteResponse where
  geometry := []
  instructions := []

/-- The origin position. -/
def originPosition : Coordinates := { lat := 0, lng := 0 }

/-- A position 1/1000 degree (111.32 modelled meters) perpendicular off
the midpoint of `sampleRoute`'s single segment. -/
def offRoutePosition : Coordinates := { lat := 1/1000, lng := 1/2 }

/-- A position on `sampleRoute`'s segment, 111.32 modelled meters short of
the destination. -/
def nearDest1 : Coordinates := { lat := 0, lng := 999/1000 }

/-- A position on `sampleRoute`'s segment, 222.64 modelled meters short of
the destination. -/
def nearDest2 : Coordinates := { lat := 0, lng := 998/1000 }

/-- The tracker state reached after one `updatePosition` at `nearDest1`
on a fresh tracker over `arrivalRoute`: no step advance (the single
instruction is already final), the position appended to the speed
history.  Reference value for the repeated-completion evaluation. -/
def arrivalAfterFirst : TrackerState where
  route := arrivalRoute
  currentStepIndex := 0
  completedDistance := 0
  totalDistance := calculateTotalDistance specDistanceMeters arrivalRoute
  speedSamples := [nearDest1]
  instructionAnchorIndices := initializeInstructionAnchors arrivalRoute

/-- A concrete idle `GroundNavigation` component state: not rerouting, no
requests issued yet, tracking `sampleRoute`. -/
def nav0 : NavState where
  route := sampleRoute
  tracker := mkRouteTracker specDistanceMeters sampleRoute
  currentStepIndex := 0
  isOffRoute := false
  offRouteCount := 0
  lastAnnouncedDistance := 0
  isRerouting := false
  requestCount := 0

/-! ### Helper lemmas -/

/-- Shape of the state component of `updatePosition` on a non-degenerate
route: the position is appended to the speed history and the step index
advances by one exactly when the advance condition holds. -/
lemma updatePosition_fst (dMeters : DistFn) (sm : SpeedModel) (s : TrackerState)
    (p : Coordinates) (h : ¬ s.route.geometry.length = 0) :
    (updatePosition dMeters sm s p).1 =
      { s with
        currentStepIndex :=
          if decide (calculateDistanceToNextManeuver dMeters s p < STEP_ADVANCE_THRESHOLD) &&
             decide ((s.currentStepIndex : ℤ) < (s.route.instructions.length : ℤ) - 1)
          then s.currentStepIndex + 1 else s.currentStepIndex
        speedSamples := s.speedSamples ++ [p] } := by
  unfold updatePosition
  rw [if_neg h]

/-- The off-route flag of `updatePosition` on a non-degenerate route is
the comparison of the snapped distance against `OFF_ROUTE_THRESHOLD`. -/
lemma updatePosition_isOffRoute (dMeters : DistFn) (sm : SpeedModel) (s : TrackerState)
    (p : Coordinates) (h : ¬ s.route.geometry.length = 0) :
    (updatePosition dMeters sm s p).2.1.isOffRoute =
      decide ((findClosestPointOnRoute dMeters s.route.geometry p).distance >
        OFF_ROUTE_THRESHOLD) := by
  unfold updatePosition
  rw [if_neg h]

/-- The callback invocations of `updatePosition` on a non-degenerate
route, in source order. -/
lemma updatePosition_events (dMeters : DistFn) (sm : SpeedModel) (s : TrackerState)
    (p : Coordinates) (h : ¬ s.route.geometry.length = 0) :
    (updatePosition dMeters sm s p).2.2 =
      (if decide (calculateDistanceToNextManeuver dMeters s p < STEP_ADVANCE_THRESHOLD) &&
          decide ((s.currentStepIndex : ℤ) < (s.route.instructions.length : ℤ) - 1)
       then [TrackerEvent.stepChange (s.currentStepIndex + 1)] else []) ++
      (if decide (calculateDistance dMeters p (destinationOf s.route) < ROUTE_COMPLETE_THRESHOLD)
       then [TrackerEvent.routeComplete] else []) ++
      (if decide ((findClosestPointOnRoute dMeters s.route.geometry p).distance >
          OFF_ROUTE_THRESHOLD)
       then [TrackerEvent.offRoute
          ((findClosestPointOnRoute dMeters s.route.geometry p).distance)] else []) := by
  unfold updatePosition
  rw [if_neg h]
  by_cases hadv :
      (decide (calculateDistanceToNextManeuver dMeters s p < STEP_ADVANCE_THRESHOLD) &&
        decide ((s.currentStepIndex : ℤ) < (s.route.instructions.length : ℤ) - 1)) = true <;>
    simp [hadv]

/-- `updatePosition` never changes the active route. -/
lemma updatePosition_route (dMeters : DistFn) (sm : SpeedModel) (s : TrackerState)
    (p : Coordinates) :
    (updatePosition dMeters sm s p).1.route = s.route := by
  unfold updatePosition
  split <;> rfl

/-- The step index moves forward by at most one in a single
`updatePosition` call. -/
lemma updatePosition_step_le (dMeters : DistFn) (sm : SpeedModel) (s : TrackerState)
    (p : Coordinates) :
    s.currentStepIndex ≤ (updatePosition dMeters sm s p).1.currentStepIndex ∧
    (updatePosition dMeters sm s p).1.currentStepIndex ≤ s.currentStepIndex + 1 := by
  by_cases h : s.route.geometry.length = 0
  · unfold updatePosition
    rw [if_pos h]
    exact ⟨le_rfl, Nat.le_succ _⟩
  · rw [updatePosition_fst dMeters sm s p h]
    dsimp only
    split
    · exact ⟨Nat.le_succ _, le_rfl⟩
    · exact ⟨le_rfl, Nat.le_succ _⟩

/-- On a route with at least one instruction, a single `updatePosition`
call keeps the step index at or below the final instruction index. -/
lemma updatePosition_step_bound (dMeters : DistFn) (sm : SpeedModel) (s : TrackerState)
    (p : Coordinates) (h1 : 1 ≤ s.route.instructions.length)
    (h2 : s.currentStepIndex ≤ s.route.instructions.length - 1) :
    (updatePosition dMeters sm s p).1.currentStepIndex ≤ s.route.instructions.length - 1 := by
  by_cases h : s.route.geometry.length = 0
  · unfold updatePosition
    rw [if_pos h]
    exact h2
  · rw [updatePosition_fst dMeters sm s p h]
    dsimp only
    split
    · rename_i hadv
      rw [Bool.and_eq_true, decide_eq_true_eq, decide_eq_true_eq] at hadv
      omega
    · exact h2

/-- `runUpdates` on the empty position list is the identity. -/
lemma runUpdates_nil (dMeters : DistFn) (sm : SpeedModel) (s : TrackerState) :
    runUpdates dMeters sm s [] = (s, []) := rfl

/-- The fold of `runUpdates` with an arbitrary event accumulator. -/
lemma runUpdates_foldl_acc (dMeters : DistFn) (sm : SpeedModel) (ps : List Coordinates)
    (st : TrackerState) (ev : List TrackerEvent) :
    ps.foldl
      (fun acc p =>
        ((updatePosition dMeters sm acc.1 p).1, acc.2 ++ (updatePosition dMeters sm acc.1 p).2.2))
      (st, ev) =
    ((runUpdates dMeters sm st ps).1, ev ++ (runUpdates dMeters sm st ps).2) := by
  induction ps generalizing st ev with
  | nil => simp [runUpdates_nil]
  | cons p ps ih =>
      have hr : runUpdates dMeters sm st (p :: ps) =
          List.foldl
            (fun acc q =>
              ((updatePosition dMeters sm acc.1 q).1,
                acc.2 ++ (updatePosition dMeters sm acc.1 q).2.2))
            ((updatePosition dMeters sm st p).1, (updatePosition dMeters sm st p).2.2) ps := rfl
      rw [List.foldl_cons]
      dsimp only
      rw [ih, hr, ih]
      simp [List.append_assoc]

/-- Unfolding one step of `runUpdates`. -/
lemma runUpdates_cons (dMeters : DistFn) (sm : SpeedModel) (s : TrackerState)
    (p : Coordinates) (ps : List Coordinates) :
    runUpdates dMeters sm s (p :: ps) =
      ((runUpdates dMeters sm (updatePosition dMeters sm s p).1 ps).1,
       (updatePosition dMeters sm s p).2.2 ++
         (runUpdates dMeters sm (updatePosition dMeters sm s p).1 ps).2) := by
  have hr : runUpdates dMeters sm s (p :: ps) =
      List.foldl
        (fun acc q =>
          ((updatePosition dMeters sm acc.1 q).1,
            acc.2 ++ (updatePosition dMeters sm acc.1 q).2.2))
        ((updatePosition dMeters sm s p).1, (updatePosition dMeters sm s p).2.2) ps := rfl
  rw [hr, runUpdates_foldl_acc]

/-- A whole run of `updatePosition` calls never changes the route. -/
lemma runUpdates_route (dMeters : DistFn) (sm : SpeedModel) (s : TrackerState)
    (ps : List Coordinates) :
    (runUpdates dMeters sm s ps).1.route = s.route := by
  induction ps generalizing s with
  | nil => rfl
  | cons p ps ih =>
      rw [runUpdates_cons]
      dsimp only
      rw [ih, updatePosition_route]

/-- The step index is monotone over a whole run. -/
lemma runUpdates_step_mono (dMeters : DistFn) (sm : SpeedModel) (s : TrackerState)
    (ps : List Coordinates) :
    s.currentStepIndex ≤ (runUpdates dMeters sm s ps).1.currentStepIndex := by
  induction ps generalizing s with
  | nil => exact le_rfl
  | cons p ps ih =>
      rw [runUpdates_cons]
      exact le_trans (updatePosition_step_le dMeters sm s p).1 (ih _)

/-- The step-index bound is preserved over a whole run. -/
lemma runUpdates_step_bound (dMeters : DistFn) (sm : SpeedModel) (s : TrackerState)
    (ps : List Coordinates) (h1 : 1 ≤ s.route.instructions.length)
    (h2 : s.currentStepIndex ≤ s.route.instructions.length - 1) :
    (runUpdates dMeters sm s ps).1.currentStepIndex ≤ s.route.instructions.length - 1 := by
  induction ps generalizing s with
  | nil => exact h2
  | cons p ps ih =>
      rw [runUpdates_cons]
      dsimp only
      have hroute := updatePosition_route dMeters sm s p
      have := ih (updatePosition dMeters sm s p).1
        (by rw [hroute]; exact h1)
        (by rw [hroute]; exact updatePosition_step_bound dMeters sm s p h1 h2)
      rwa [hroute] at this

/-- While a reroute is in flight, the reroute check is a no-op: the first
clause of `handleAutoReroute`'s guard drops the event. -/
lemma rerouteCheck_inFlight (s : NavState) (g off dec : Bool)
    (pos : Option Coordinates) (cb : Bool) (h : s.isRerouting = true) :
    rerouteCheck s g off dec pos cb = s := by
  unfold rerouteCheck handleAutoRerouteStart
  rw [h]
  simp

/-- A burst of off-route events starting in the in-flight state changes
nothing. -/
lemma burst_inFlight (g cb : Bool) (rest : List Coordinates) (s : NavState)
    (h : s.isRerouting = true) :
    rest.foldl (fun t p => rerouteCheck t g true true (some p) cb) s = s := by
  induction rest with
  | nil => rfl
  | cons p rest ih =>
      rw [List.foldl_cons, rerouteCheck_inFlight s g true true (some p) cb h]
      exact ih

/-- With at least two instructions the divisor `instructionCount − 1` is
nonzero, the JavaScript float chain stays finite, and an anchor entry is
the clamped floor of the proportional index. -/
lemma anchorEntry_eq_num (n g i : ℕ) (hn : 2 ≤ n) :
    anchorEntry n g i =
      JSVal.num ((max 0 (min (⌊(i : ℚ) / ((n : ℚ) - 1) * ((g : ℚ) - 1)⌋)
        ((g : ℤ) - 1)) : ℤ) : ℚ) := by
  have hne : ((n : ℚ) - 1) ≠ 0 := by
    have h2 : (2 : ℚ) ≤ (n : ℚ) := by exact_mod_cast hn
    intro hc
    nlinarith
  unfold anchorEntry
  simp only [jsDiv, if_neg hne, jsMul, jsFloor, jsMin, jsMax]
  congr 1
  push_cast
  ring_nf

/-! ### The claims -/

/-- C3: starting idle (no reroute in flight), with the route-update
callback wired and a non-degenerate route, any nonempty synchronous burst
of off-route events — all processed before the reroute request resolves —
issues exactly one network request to the routing collaborator, and
leaves the policy in the in-flight state. -/
theorem offRouteBurst_exactly_one_request (nav : NavState) (g : Bool)
    (positions : List Coordinates) (h0 : nav.isRerouting = false)
    (h1 : ¬ nav.route.geometry.length = 0) (h2 : positions ≠ []) :
    (processOffRouteBurst nav g positions true).requestCount = nav.requestCount + 1 ∧
    (processOffRouteBurst nav g positions true).isRerouting = true := by
  obtain ⟨p, rest, rfl⟩ : ∃ p rest, positions = p :: rest := by
    cases positions with
    | nil => exact absurd rfl h2
    | cons a l => exact ⟨a, l, rfl⟩
  unfold processOffRouteBurst
  rw [List.foldl_cons]
  have hstep : rerouteCheck nav g true true (some p) true =
      { nav with isRerouting := true, requestCount := nav.requestCount + 1 } := by
    unfold rerouteCheck handleAutoRerouteStart
    rw [h0]
    simp [h1]
  rw [hstep, burst_inFlight g true rest _ rfl]
  exact ⟨rfl, rfl⟩

/-- Witness for C3: a burst of three synchronous off-route events on the
idle `nav0` yields exactly one request. -/
theorem offRouteBurst_exactly_one_request_witness :
    nav0.isRerouting = false ∧ ¬ nav0.route.geometry.length = 0 ∧
    ([originPosition, originPosition, originPosition] : List Coordinates) ≠ [] ∧
    ((processOffRouteBurst nav0 true [originPosition, originPosition, originPosition]
        true).requestCount = nav0.requestCount + 1 ∧
      (processOffRouteBurst nav0 true [originPosition, originPosition, originPosition]
        true).isRerouting = true) :=
  ⟨rfl, by simp [nav0, sampleRoute], List.cons_ne_nil _ _,
    offRouteBurst_exactly_one_request nav0 true _ rfl (by simp [nav0, sampleRoute])
      (List.cons_ne_nil _ _)⟩

/-- C6 counterexample: with the GPS-source flag reporting a synthetic
source (`useRealGPS = false`), an off-route event on the idle `nav0`
still issues a network reroute request — the claim that synthetic
positions never trigger reroutes is false on this code. -/
theorem mock_gps_reroute_request :
    (rerouteCheck nav0 false true true (some originPosition) true).requestCount = 1 ∧
    nav0.requestCount = 0 := by
  constructor
  · unfold rerouteCheck handleAutoRerouteStart
    simp [nav0, sampleRoute]
  · rfl

/-- C6 amended: the reroute-check path of `GroundNavigation.updateProgress`
issues requests under exactly the same conditions whether the position
source is real-device GPS or a synthetic generator — the `useRealGPS`
flag is never consulted. -/
theorem rerouteCheck_independent_of_gps_source (nav : NavState)
    (progressIsOffRoute detectorShouldReroute : Bool)
    (currentPosition : Option Coordinates) (hasRouteUpdateCb : Bool) :
    rerouteCheck nav true progressIsOffRoute detectorShouldReroute currentPosition
        hasRouteUpdateCb =
      rerouteCheck nav false progressIsOffRoute detectorShouldReroute currentPosition
        hasRouteUpdateCb := rfl

/-- C7: when the reroute network call fails, the whole attempt (guarded
start followed by the failure resolution) leaves the active route, its
instruction list, the tracker (in particular its step index), and the
component step index unchanged, and returns the policy to the idle
(not-rerouting) state; no state beyond the in-flight flag is touched. -/
theorem reroute_failure_preserves_route (dMeters : DistFn) (nav : NavState)
    (currentPosition : Option Coordinates) (hasRouteUpdateCb : Bool) :
    (handleAutoRerouteResolve dMeters
        (handleAutoRerouteStart nav currentPosition hasRouteUpdateCb)
        RerouteOutcome.failure).route = nav.route ∧
    (handleAutoRerouteResolve dMeters
        (handleAutoRerouteStart nav currentPosition hasRouteUpdateCb)
        RerouteOutcome.failure).route.instructions = nav.route.instructions ∧
    (handleAutoRerouteResolve dMeters
        (handleAutoRerouteStart nav currentPosition hasRouteUpdateCb)
        RerouteOutcome.failure).tracker = nav.tracker ∧
    (handleAutoRerouteResolve dMeters
        (handleAutoRerouteStart nav currentPosition hasRouteUpdateCb)
        RerouteOutcome.failure).tracker.currentStepIndex = nav.tracker.currentStepIndex ∧
    (handleAutoRerouteResolve dMeters
        (handleAutoRerouteStart nav currentPosition hasRouteUpdateCb)
        RerouteOutcome.failure).currentStepIndex = nav.currentStepIndex ∧
    (handleAutoRerouteResolve dMeters
        (handleAutoRerouteStart nav currentPosition hasRouteUpdateCb)
        RerouteOutcome.failure).offRouteCount = nav.offRouteCount ∧
    (handleAutoRerouteResolve dMeters
        (handleAutoRerouteStart nav currentPosition hasRouteUpdateCb)
        RerouteOutcome.failure).isRerouting = false := by
  unfold handleAutoRerouteResolve
  dsimp only
  unfold handleAutoRerouteStart
  split
  · exact ⟨rfl, rfl, rfl, rfl, rfl, rfl, rfl⟩
  · split
    · exact ⟨rfl, rfl, rfl, rfl, rfl, rfl, rfl⟩
    · exact ⟨rfl, rfl, rfl, rfl, rfl, rfl, rfl⟩

/-- C5 counterexample: for three instructions over four geometry points
the table built by `initializeInstructionAnchors` differs from the spec's
round-based table — the middle proportional index is `3/2`, which the
source floors to 1 while the spec's formula rounds to 2. -/
theorem anchor_table_not_round :
    initializeInstructionAnchors threeByFourRoute ≠
      (specRoundAnchorTable threeByFourRoute.instructions.length
        threeByFourRoute.geometry.length).map (fun k => JSVal.num (k : ℚ)) := by
  have hcode : initializeInstructionAnchors threeByFourRoute =
      [JSVal.num 0, JSVal.num 1, JSVal.num 3] := by
    norm_num [initializeInstructionAnchors, anchorEntry, threeByFourRoute,
      jsDiv, jsMul, jsFloor, jsMin, jsMax, List.range_succ]
  have hspec : (specRoundAnchorTable threeByFourRoute.instructions.length
      threeByFourRoute.geometry.length).map (fun k => JSVal.num (k : ℚ)) =
      [JSVal.num 0, JSVal.num 2, JSVal.num 3] := by
    norm_num [specRoundAnchorTable, threeByFourRoute, List.range_succ, round_eq]
  rw [hcode, hspec]
  simp

/-- C5 amended: on construction (and on every `updateRoute`, which calls
the same `initializeInstructionAnchors`), for a route with at least two
instructions and non-empty geometry, the anchor table has one entry per
instruction and entry `i` is `floor(i / (instructionCount−1) ×
(geometryLength−1))` clamped to `[0, geometryLength−1]` — the source uses
`Math.floor`, not `round`; for 2 instructions over 9 geometry points this
still yields anchors `[0, 8]`. -/
theorem anchor_table_floor_formula (route : RouteResponse)
    (hn : 2 ≤ route.instructions.length) (hg : 1 ≤ route.geometry.length) :
    initializeInstructionAnchors route =
      (List.range route.instructions.length).map (fun (i : ℕ) =>
        JSVal.num ((max 0 (min (⌊(i : ℚ) / ((route.instructions.length : ℚ) - 1) *
          ((route.geometry.length : ℚ) - 1)⌋) ((route.geometry.length : ℤ) - 1)) : ℤ) : ℚ)) ∧
    (initializeInstructionAnchors route).length = route.instructions.length := by
  constructor
  · unfold initializeInstructionAnchors
    exact List.map_congr_left fun i _ =>
      anchorEntry_eq_num route.instructions.length route.geometry.length i hn
  · unfold initializeInstructionAnchors
    simp

/-- Witness for C5 (amended): the spec's own example, two instructions
over nine geometry points. -/
theorem anchor_table_floor_formula_witness :
    (2 ≤ twoByNineRoute.instructions.length ∧ 1 ≤ twoByNineRoute.geometry.length) ∧
    (initializeInstructionAnchors twoByNineRoute =
      (List.range twoByNineRoute.instructions.length).map (fun (i : ℕ) =>
        JSVal.num ((max 0 (min (⌊(i : ℚ) / ((twoByNineRoute.instructions.length : ℚ) - 1) *
          ((twoByNineRoute.geometry.length : ℚ) - 1)⌋)
          ((twoByNineRoute.geometry.length : ℤ) - 1)) : ℤ) : ℚ)) ∧
      (initializeInstructionAnchors twoByNineRoute).length =
        twoByNineRoute.instructions.length) :=
  ⟨⟨by simp [twoByNineRoute], by simp [twoByNineRoute]⟩,
    anchor_table_floor_formula twoByNineRoute (by simp [twoByNineRoute])
      (by simp [twoByNineRoute])⟩

/-- C10 counterexample: for a route with exactly one instruction the
source divides by `instructions.length - 1 = 0`; the proportional index
is `0/0 = NaN`, `Math.floor`/`Math.min`/`Math.max` propagate it, and the
single anchor entry is `NaN` — not an integer in `[0, geometryLength−1]`. -/
theorem single_instruction_anchor_nan :
    initializeInstructionAnchors fivePointRoute = [JSVal.nan] ∧
    ∀ k : ℤ, JSVal.nan ≠ JSVal.num (k : ℚ) := by
  constructor
  · norm_num [initializeInstructionAnchors, anchorEntry, fivePointRoute,
      jsDiv, jsMul, jsFloor, jsMin, jsMax, List.range_succ]
  · intro k h
    exact JSVal.noConfusion h

/-- C10 amended: for a route with at least two instructions and non-empty
geometry, every entry of the anchor table is an integer in
`[0, geometryLength−1]`; for exactly one instruction the single entry is
`NaN` instead. -/
theorem anchor_entries_integral_in_range (route : RouteResponse)
    (hn : 2 ≤ route.instructions.length) (hg : 1 ≤ route.geometry.length) :
    ∀ v ∈ initializeInstructionAnchors route, ∃ k : ℤ,
      v = JSVal.num (k : ℚ) ∧ 0 ≤ k ∧ k ≤ (route.geometry.length : ℤ) - 1 := by
  intro v hv
  unfold initializeInstructionAnchors at hv
  obtain ⟨i, _, rfl⟩ := List.mem_map.1 hv
  rw [anchorEntry_eq_num route.instructions.length route.geometry.length i hn]
  refine ⟨_, rfl, le_max_left 0 _, max_le ?_ (min_le_right _ _)⟩
  have : (1 : ℤ) ≤ (route.geometry.length : ℤ) := by exact_mod_cast hg
  omega

/-- Witness for C10 (amended): every anchor entry of the nine-point,
two-instruction route is an integer in `[0, 8]`. -/
theorem anchor_entries_integral_in_range_witness :
    (2 ≤ twoByNineRoute.instructions.length ∧ 1 ≤ twoByNineRoute.geometry.length) ∧
    ∀ v ∈ initializeInstructionAnchors twoByNineRoute, ∃ k : ℤ,
      v = JSVal.num (k : ℚ) ∧ 0 ≤ k ∧ k ≤ (twoByNineRoute.geometry.length : ℤ) - 1 :=
  ⟨⟨by simp [twoByNineRoute], by simp [twoByNineRoute]⟩,
    anchor_entries_integral_in_range twoByNineRoute (by simp [twoByNineRoute])
      (by simp [twoByNineRoute])⟩

/-- C4 counterexample: on a route with an empty instruction list (and
non-empty geometry) the step index, which starts and stays at 0, already
exceeds `instructions.length − 1 = −1` after an `updatePosition` call, so
the claimed bound does not hold for every fixed route. -/
theorem stepIndex_bound_fails_without_instructions :
    ¬ (((updatePosition specDistanceMeters zeroSpeedModel
          (mkRouteTracker specDistanceMeters noInstructionRoute)
          originPosition).1.currentStepIndex : ℤ) ≤
        (noInstructionRoute.instructions.length : ℤ) - 1) := by
  have h : ¬ (mkRouteTracker specDistanceMeters noInstructionRoute).route.geometry.length = 0 := by
    simp [mkRouteTracker, noInstructionRoute]
  rw [updatePosition_fst _ _ _ _ h]
  simp [mkRouteTracker, noInstructionRoute]

/-- C4 amended: for a fixed route with at least one instruction, across
any sequence of `updatePosition` calls from construction, the step index
is monotonically non-decreasing, increases by at most one per call, and
never exceeds `instructions.length − 1`. -/
theorem stepIndex_monotone_bounded (dMeters : DistFn) (sm : SpeedModel)
    (route : RouteResponse) (positions : List Coordinates) (position : Coordinates)
    (h : 1 ≤ route.instructions.length) :
    (runUpdates dMeters sm (mkRouteTracker dMeters route) positions).1.currentStepIndex ≤
      (updatePosition dMeters sm
        (runUpdates dMeters sm (mkRouteTracker dMeters route) positions).1
        position).1.currentStepIndex ∧
    (updatePosition dMeters sm
        (runUpdates dMeters sm (mkRouteTracker dMeters route) positions).1
        position).1.currentStepIndex ≤
      (runUpdates dMeters sm (mkRouteTracker dMeters route) positions).1.currentStepIndex + 1 ∧
    (updatePosition dMeters sm
        (runUpdates dMeters sm (mkRouteTracker dMeters route) positions).1
        position).1.currentStepIndex ≤ route.instructions.length - 1 := by
  have hroute :
      (runUpdates dMeters sm (mkRouteTracker dMeters route) positions).1.route = route := by
    rw [runUpdates_route]
    rfl
  have hb :
      (runUpdates dMeters sm (mkRouteTracker dMeters route) positions).1.currentStepIndex ≤
        route.instructions.length - 1 :=
    runUpdates_step_bound dMeters sm (mkRouteTracker dMeters route) positions h (Nat.zero_le _)
  refine ⟨(updatePosition_step_le _ _ _ _).1, (updatePosition_step_le _ _ _ _).2, ?_⟩
  have hstep := updatePosition_step_bound dMeters sm
    (runUpdates dMeters sm (mkRouteTracker dMeters route) positions).1 position
    (by rw [hroute]; exact h) (by rw [hroute]; exact hb)
  rwa [hroute] at hstep

/-- Witness for C4 (amended): two instructions, one prior update, one
further update. -/
theorem stepIndex_monotone_bounded_witness :
    1 ≤ sampleRoute.instructions.length ∧
    ((runUpdates specDistanceMeters zeroSpeedModel
        (mkRouteTracker specDistanceMeters sampleRoute) [originPosition]).1.currentStepIndex ≤
      (updatePosition specDistanceMeters zeroSpeedModel
        (runUpdates specDistanceMeters zeroSpeedModel
          (mkRouteTracker specDistanceMeters sampleRoute) [originPosition]).1
        nearDest1).1.currentStepIndex ∧
    (updatePosition specDistanceMeters zeroSpeedModel
        (runUpdates specDistanceMeters zeroSpeedModel
          (mkRouteTracker specDistanceMeters sampleRoute) [originPosition]).1
        nearDest1).1.currentStepIndex ≤
      (runUpdates specDistanceMeters zeroSpeedModel
        (mkRouteTracker specDistanceMeters sampleRoute) [originPosition]).1.currentStepIndex + 1 ∧
    (updatePosition specDistanceMeters zeroSpeedModel
        (runUpdates specDistanceMeters zeroSpeedModel
          (mkRouteTracker specDistanceMeters sampleRoute) [originPosition]).1
        nearDest1).1.currentStepIndex ≤ sampleRoute.instructions.length - 1) :=
  ⟨by simp [sampleRoute],
    stepIndex_monotone_bounded specDistanceMeters zeroSpeedModel sampleRoute
      [originPosition] nearDest1 (by simp [sampleRoute])⟩

/-- C8: on a route with empty geometry, `updatePosition` (a total
function here — the guard precedes every geometry access) changes nothing
and returns the zeroed default progress: step 0, zero distances, not
off-route, zero percent, zero speed/ETA values. -/
theorem updatePosition_empty_geometry_default (dMeters : DistFn) (sm : SpeedModel)
    (s : TrackerState) (position : Coordinates) (h : s.route.geometry = []) :
    updatePosition dMeters sm s position = (s, createDefaultProgress, []) ∧
    createDefaultProgress.currentStep = 0 ∧
    createDefaultProgress.distanceToNext = 0 ∧
    createDefaultProgress.distanceRemaining = 0 ∧
    createDefaultProgress.isOffRoute = false ∧
    createDefaultProgress.percentComplete = 0 ∧
    createDefaultProgress.estimatedTimeRemaining = 0 ∧
    createDefaultProgress.currentSpeed = 0 ∧
    createDefaultProgress.averageSpeed = 0 ∧
    createDefaultProgress.dynamicETA =
      { estimatedTimeRemaining := 0, speedBasedETA := 0, distanceRemaining := 0 } := by
  have hlen : s.route.geometry.length = 0 := by rw [h]; rfl
  refine ⟨?_, rfl, rfl, rfl, rfl, rfl, rfl, rfl, rfl, rfl⟩
  unfold updatePosition
  rw [if_pos hlen]

/-- Witness for C8: a tracker built over the empty route. -/
theorem updatePosition_empty_geometry_default_witness :
    (mkRouteTracker specDistanceMeters emptyRoute).route.geometry = [] ∧
    (updatePosition specDistanceMeters zeroSpeedModel
        (mkRouteTracker specDistanceMeters emptyRoute) originPosition =
      (mkRouteTracker specDistanceMeters emptyRoute, createDefaultProgress, []) ∧
    createDefaultProgress.currentStep = 0 ∧
    createDefaultProgress.distanceToNext = 0 ∧
    createDefaultProgress.distanceRemaining = 0 ∧
    createDefaultProgress.isOffRoute = false ∧
    createDefaultProgress.percentComplete = 0 ∧
    createDefaultProgress.estimatedTimeRemaining = 0 ∧
    createDefaultProgress.currentSpeed = 0 ∧
    createDefaultProgress.averageSpeed = 0 ∧
    createDefaultProgress.dynamicETA =
      { estimatedTimeRemaining := 0, speedBasedETA := 0, distanceRemaining := 0 }) :=
  ⟨rfl, updatePosition_empty_geometry_default specDistanceMeters zeroSpeedModel
    (mkRouteTracker specDistanceMeters emptyRoute) originPosition rfl⟩

/-- C9: `updateRoute(newRoute)`, from any prior tracker state, resets the
step index to 0, resets the cumulative completed distance, rebuilds the
instruction-anchor table for the new route, resets the speed tracker's
history to empty, installs the new route, and invokes no callback. -/
theorem updateRoute_resets (dMeters : DistFn) (s : TrackerState) (newRoute : RouteResponse) :
    (updateRoute dMeters s newRoute).1.currentStepIndex = 0 ∧
    (updateRoute dMeters s newRoute).1.completedDistance = 0 ∧
    (updateRoute dMeters s newRoute).1.instructionAnchorIndices =
      initializeInstructionAnchors newRoute ∧
    (updateRoute dMeters s newRoute).1.speedSamples = [] ∧
    (updateRoute dMeters s newRoute).1.totalDistance = calculateTotalDistance dMeters newRoute ∧
    (updateRoute dMeters s newRoute).1.route = newRoute ∧
    (updateRoute dMeters s newRoute).2 = [] :=
  ⟨rfl, rfl, rfl, rfl, rfl, rfl, rfl⟩

/-- C1: the off-route flag compares the km-valued snapped distance (the
`mapUtils` wrapper divides the meters distance by 1000) against the
meter-intended constant 25, so the claimed "flag ⟺ distance > 25 meters"
fails: at `offRoutePosition`, 111.32 modelled meters (well over 25) from
the route, the snapped distance exceeds 25 meters yet `updatePosition`
reports `isOffRoute = false` (the flag would require more than 25
KILOMETERS). -/
theorem offRoute_flag_units_divergence :
    (findClosestPointOnRoute specDistanceMeters sampleRoute.geometry offRoutePosition).distance
        * 1000 > 25 ∧
    (updatePosition specDistanceMeters zeroSpeedModel
      (mkRouteTracker specDistanceMeters sampleRoute) offRoutePosition).2.1.isOffRoute = false := by
  have hfind : findClosestPointOnRoute specDistanceMeters sampleRoute.geometry offRoutePosition =
      { point := { lat := 0, lng := 1/2 }, distance := 2783/25000, segmentIndex := 0 } := by
    norm_num [findClosestPointOnRoute, closestFold, getClosestPointOnSegment, coordAt,
      calculateDistance, specDistanceMeters, sampleRoute, offRoutePosition, LngLat.toCoord,
      List.range_succ, abs_of_nonneg, abs_of_pos]
  constructor
  · rw [hfind]
    norm_num
  · rw [updatePosition_isOffRoute _ _ _ _ (by simp [mkRouteTracker, sampleRoute])]
    rw [show (mkRouteTracker specDistanceMeters sampleRoute).route = sampleRoute from rfl]
    rw [hfind]
    simp only [decide_eq_false_iff_not]
    norm_num [OFF_ROUTE_THRESHOLD]

/-- C2: `updatePosition` has no once-per-lifetime latch on
`onRouteComplete` and its completion test compares the km-valued distance
against the meter-intended constant 3: at `nearDest1` and `nearDest2`,
both more than 3 meters (111.32 and 222.64 modelled meters) short of the
destination, two consecutive updates each invoke `onRouteComplete` — the
callback fires twice in one route lifetime and at distances far beyond 3
meters. -/
theorem routeComplete_repeats :
    specDistanceMeters nearDest1 (destinationOf arrivalRoute) > 3 ∧
    specDistanceMeters nearDest2 (destinationOf arrivalRoute) > 3 ∧
    (runUpdates specDistanceMeters zeroSpeedModel
        (mkRouteTracker specDistanceMeters arrivalRoute) [nearDest1, nearDest2]).2 =
      [TrackerEvent.routeComplete, TrackerEvent.routeComplete] := by
  have h0 : ¬ (mkRouteTracker specDistanceMeters arrivalRoute).route.geometry.length = 0 := by
    simp [mkRouteTracker, arrivalRoute]
  have hs1 : (updatePosition specDistanceMeters zeroSpeedModel
      (mkRouteTracker specDistanceMeters arrivalRoute) nearDest1).1 =
      arrivalAfterFirst := by
    rw [updatePosition_fst _ _ _ _ h0]
    simp [arrivalAfterFirst, mkRouteTracker, arrivalRoute]
  have hev1 : (updatePosition specDistanceMeters zeroSpeedModel
      (mkRouteTracker specDistanceMeters arrivalRoute) nearDest1).2.2 =
      [TrackerEvent.routeComplete] := by
    rw [updatePosition_events _ _ _ _ h0]
    norm_num [mkRouteTracker, arrivalRoute, destinationOf, coordAt, LngLat.toCoord,
      calculateDistance, specDistanceMeters, ROUTE_COMPLETE_THRESHOLD, OFF_ROUTE_THRESHOLD,
      findClosestPointOnRoute, closestFold, getClosestPointOnSegment, List.range_succ,
      nearDest1, abs_of_nonneg, abs_of_pos]
  have h1 : ¬ arrivalAfterFirst.route.geometry.length = 0 := by
    simp [arrivalAfterFirst, arrivalRoute]
  have hev2 : (updatePosition specDistanceMeters zeroSpeedModel
      arrivalAfterFirst nearDest2).2.2 =
      [TrackerEvent.routeComplete] := by
    rw [updatePosition_events _ _ _ _ h1]
    norm_num [arrivalAfterFirst, arrivalRoute, destinationOf, coordAt, LngLat.toCoord,
      calculateDistance, specDistanceMeters, ROUTE_COMPLETE_THRESHOLD, OFF_ROUTE_THRESHOLD,
      findClosestPointOnRoute, closestFold, getClosestPointOnSegment, List.range_succ,
      nearDest2, abs_of_nonneg, abs_of_pos]
  refine ⟨?_, ?_, ?_⟩
  · norm_num [specDistanceMeters, destinationOf, coordAt, arrivalRoute, nearDest1,
      LngLat.toCoord, abs_of_nonneg, abs_of_pos]
  · norm_num [specDistanceMeters, destinationOf, coordAt, arrivalRoute, nearDest2,
      LngLat.toCoord, abs_of_nonneg, abs_of_pos]
  · rw [runUpdates_cons, runUpdates_cons, runUpdates_nil]
    rw [hev1, hs1, hev2]
    rfl

end BeachResort
